import Mathlib

/-!
Verification of the SQL validation and query-feedback core of the
natural-language-to-SQL converter.

The development shallowly embeds, over `List Char`:
  * `src/services/sql_validator.py` — `SQLValidator.validate_and_optimize`
    with its helpers (`_validate_syntax` as `validateSyntaxErrs`,
    `_validate_security` as `validateSecurityIssues`, `_analyze_performance` as
    `validatePerformanceSuggestions`, `_validate_sqlserver_specifics` as
    `validateSqlserverWarnings`, `_optimize_query` as `optimizeQuery`,
    `is_read_only_query`);
  * `src/services/query_feedback_service.py` —
    `QueryFeedbackService.analyze_query_quality` with its stage analyzers
    (`_analyze_syntax` as `analyzeSyntaxF`, `_analyze_semantic_alignment` as
    `analyzeSemanticF`, `_analyze_performance` as `analyzePerformanceF`,
    `_analyze_security` as `analyzeSecurityF`), `_test_query_execution` as
    `testQueryExecution`, and `_generate_recommendations` as
    `generateRecommendations`.

Modelling conventions:
  * Python `str` is `List Char`; `str.upper()`/`str.lower()` are char-wise
    ASCII case maps; `str.strip()` uses the ASCII whitespace set.
  * Each literal Python regex is translated into a decidable matcher built
    from continuation-style combinators (`mLit`, `mWsStar`, ...); `re.search`
    is `reSearch` (the pattern may match at any position).  Greedy vs lazy
    quantifiers are irrelevant for the boolean "does it match" question, which
    is all the source ever asks.
  * Python `float` arithmetic (the 0.3/0.3/0.2/0.2 weighted overall score and
    execution timings) is modelled with exact rationals.
  * A body wrapped in `try/except Exception` that performs no I/O cannot fail
    on its own; the possibility of a runtime exception inside such a body is
    modelled by an explicit `Option String` parameter carrying the exception
    message (`none` = normal execution).  The exception is modelled as raised
    at the top of the `try` block; this is exact for the resulting scores
    (every handler overwrites the score) and gives the handler-appended
    finding as the whole issue list.
  * `sqlparse.parse` (external library) never raises and never returns an
    empty statement list for a non-empty input; the `try/except` around it in
    `validate_and_optimize` is modelled by an `Option String` parameter.
  * `sqlparse.format` (external library) is modelled from the spec: an
    abstract formatting-only transform parameter `fmt`.
  * The live database in `_test_query_execution` is modelled by an
    `Except String Unit` connection outcome plus an oracle for
    `cursor.execute`/`fetchall`; the `sent` field of the result records the
    statement that was passed to `cursor.execute` (`none` = nothing sent).
-/

set_option maxRecDepth 20000

/-- ASCII whitespace, as stripped by Python's `str.strip()` and matched by
the regex class `\s`. -/
def isPyWs (c : Char) : Bool :=
  c = ' ' || c = '\t' || c = '\n' || c = '\r' || c = '\x0b' || c = '\x0c'

/-- Python `str.upper()`, ASCII char-wise model. -/
def pyUpper (l : List Char) : List Char := l.map Char.toUpper

/-- Python `str.lower()`, ASCII char-wise model. -/
def pyLower (l : List Char) : List Char := l.map Char.toLower

/-- Python `str.strip()`. -/
def pyStrip (l : List Char) : List Char :=
  ((l.dropWhile isPyWs).reverse.dropWhile isPyWs).reverse

/-- String literal to char list (convenience). -/
def cl (s : String) : List Char := s.toList

/-- Python substring containment: `needle in hay`. -/
def subOf (n : List Char) : List Char → Bool
  | [] => n.isEmpty
  | c :: t => n.isPrefixOf (c :: t) || subOf n t

/-- Python `str.count(sub)` for a substring: non-overlapping occurrences,
scanning left to right (fuel-indexed to make the recursion structural). -/
def countSubAux : Nat → List Char → List Char → Nat
  | 0, _, _ => 0
  | _ + 1, _, [] => 0
  | f + 1, n, c :: t =>
      if n.isPrefixOf (c :: t) then 1 + countSubAux f n ((c :: t).drop n.length)
      else countSubAux f n t

def countSub (n l : List Char) : Nat := countSubAux l.length n l

/-- Python `str.replace(old, new, 1)`: replace the first occurrence only. -/
def replaceFirst (old new : List Char) : List Char → List Char
  | [] => []
  | c :: t =>
      if old.isPrefixOf (c :: t) then new ++ (c :: t).drop old.length
      else c :: replaceFirst old new t

/-- A regex word character `\w` (ASCII model). -/
def isWordChar (c : Char) : Bool := c.isAlphanum || c = '_'

/-- `re.findall(r"\b\w+\b", ·)`: the maximal runs of word characters
(fuel-indexed). -/
def wordTokensAux : Nat → List Char → List (List Char)
  | 0, _ => []
  | _ + 1, [] => []
  | f + 1, c :: t =>
      if isWordChar c then (c :: t.takeWhile isWordChar) :: wordTokensAux f (t.dropWhile isWordChar)
      else wordTokensAux f t

def wordTokens (l : List Char) : List (List Char) := wordTokensAux l.length l

/-! ### Regex matcher combinators

A matcher `List Char → Bool` decides whether the pattern fragment matches at
the start of the input, continuing with a continuation matcher `k` after the
consumed prefix. -/

/-- Empty continuation: the pattern ends here. -/
def mTrue : List Char → Bool := fun _ => true

/-- A literal fragment, then `k`. -/
def mLit (lit : List Char) (k : List Char → Bool) (h : List Char) : Bool :=
  lit.isPrefixOf h && k (h.drop lit.length)

/-- `.*` without DOTALL: any run of non-newline characters, then `k`. -/
def mAnyNoNL (k : List Char → Bool) : List Char → Bool
  | [] => k []
  | c :: t => k (c :: t) || (c != '\n' && mAnyNoNL k t)

/-- `\s*` then `k`. -/
def mWsStar (k : List Char → Bool) : List Char → Bool
  | [] => k []
  | c :: t => k (c :: t) || (isPyWs c && mWsStar k t)

/-- `\s+` then `k`. -/
def mWsPlus (k : List Char → Bool) (h : List Char) : Bool :=
  match h with
  | [] => false
  | c :: t => isPyWs c && mWsStar k t

/-- `(\s|%20)*` then `k`.  The source patterns write `((\s|%20)+)?((\s|%20)+)?`,
which accepts exactly the same set of gap strings. -/
def mWsPctStar (k : List Char → Bool) : List Char → Bool
  | [] => k []
  | c :: t =>
      k (c :: t) || (isPyWs c && mWsPctStar k t) ||
        (match c, t with
         | '%', '2' :: '0' :: t2 => mWsPctStar k t2
         | _, _ => false)

/-- `(\s|%20)+` then `k`. -/
def mWsPctPlus (k : List Char → Bool) (h : List Char) : Bool :=
  match h with
  | [] => false
  | c :: t =>
      (isPyWs c && mWsPctStar k t) ||
        (match c, t with
         | '%', '2' :: '0' :: t2 => mWsPctStar k t2
         | _, _ => false)

/-- A character class `[...]` of the listed characters, then `k`. -/
def mCharIn (cs : List Char) (k : List Char → Bool) (h : List Char) : Bool :=
  match h with
  | [] => false
  | c :: t => cs.contains c && k t

/-- `\w*` then `k`. -/
def mWordStar (k : List Char → Bool) : List Char → Bool
  | [] => k []
  | c :: t => k (c :: t) || (isWordChar c && mWordStar k t)

/-- `\w+` then `k`. -/
def mWordPlus (k : List Char → Bool) (h : List Char) : Bool :=
  match h with
  | [] => false
  | c :: t => isWordChar c && mWordStar k t

/-- `\d*` then `k`. -/
def mDigitStar (k : List Char → Bool) : List Char → Bool
  | [] => k []
  | c :: t => k (c :: t) || (c.isDigit && mDigitStar k t)

/-- `\d+` then `k`. -/
def mDigitPlus (k : List Char → Bool) (h : List Char) : Bool :=
  match h with
  | [] => false
  | c :: t => c.isDigit && mDigitStar k t

/-- `[0-9]{1,2}` then `k`. -/
def mD12 (k : List Char → Bool) (h : List Char) : Bool :=
  match h with
  | [] => false
  | c :: t =>
      c.isDigit &&
        (k t ||
          (match t with
           | d :: t2 => d.isDigit && k t2
           | [] => false))

/-- `[0-9]{4}` then `k`. -/
def mD4 (k : List Char → Bool) (h : List Char) : Bool :=
  match h with
  | a :: b :: c :: d :: t => a.isDigit && b.isDigit && c.isDigit && d.isDigit && k t
  | _ => false

/-- `re.search`: try the matcher at every position (including the end, for
nullable patterns). -/
def reSearch (m : List Char → Bool) : List Char → Bool
  | [] => m []
  | c :: t => m (c :: t) || reSearch m t

/-- `re.search` for a pattern that begins with `\b` followed by a word
character: the matcher may only fire at the start of the text or right after
a non-word character. -/
def reSearchBndAux (m : List Char → Bool) : Bool → List Char → Bool
  | atB, [] => atB && m []
  | atB, c :: t => (atB && m (c :: t)) || reSearchBndAux m (!(isWordChar c)) t

def reSearchBnd (m : List Char → Bool) (h : List Char) : Bool :=
  reSearchBndAux m true h

/-! ### Comment stripping (`is_read_only_query`) -/

/-- The text after the first newline, if any. -/
def afterNewline : List Char → Option (List Char)
  | [] => none
  | '\n' :: t => some t
  | _ :: t => afterNewline t

/-- The text after the first block-comment closer, if any. -/
def afterBlockClose : List Char → Option (List Char)
  | [] => none
  | '*' :: '/' :: t => some t
  | _ :: t => afterBlockClose t

/-- `re.sub(r"--.*?\n", "", ·)`: each line comment is removed together with
its terminating newline; a trailing `--` comment with no newline does not
match the pattern and is kept (and then nothing later can match either,
since no newline remains). -/
def stripLineCommentsAux : Nat → List Char → List Char
  | 0, l => l
  | _ + 1, [] => []
  | f + 1, '-' :: '-' :: t =>
      (match afterNewline t with
       | some rest => stripLineCommentsAux f rest
       | none => '-' :: '-' :: t)
  | f + 1, c :: t => c :: stripLineCommentsAux f t

def stripLineComments (l : List Char) : List Char := stripLineCommentsAux l.length l

/-- `re.sub(r"/\*.*?\*/", "", ·, flags=re.DOTALL)`: each block comment is
removed up to the first closer; an unterminated `/*` does not match and is
kept (no closer remains for any later opener either). -/
def stripBlockCommentsAux : Nat → List Char → List Char
  | 0, l => l
  | _ + 1, [] => []
  | f + 1, '/' :: '*' :: t =>
      (match afterBlockClose t with
       | some rest => stripBlockCommentsAux f rest
       | none => '/' :: '*' :: t)
  | f + 1, c :: t => c :: stripBlockCommentsAux f t

def stripBlockComments (l : List Char) : List Char := stripBlockCommentsAux l.length l

/-! ### `sql_validator.py` : `SQLValidator` -/

/-- `is_read_only_query` (sql_validator.py:276-290): uppercase, strip, remove
line and block comments, strip again, and test for a `SELECT`/`WITH` prefix.
None of the involved operations can raise, so the `except: return False`
branch is dead. -/
def is_read_only_query (q : List Char) : Bool :=
  let qU := pyStrip (pyUpper q)
  let c1 := stripLineComments qU
  let c2 := stripBlockComments c1
  let cq := pyStrip c2
  (cl "SELECT").isPrefixOf cq || (cl "WITH").isPrefixOf cq

/-- The recognized statement keywords of `_validate_syntax`
(sql_validator.py:133). -/
def kwPresent (u : List Char) : Bool :=
  subOf (cl "SELECT") u || subOf (cl "INSERT") u || subOf (cl "UPDATE") u ||
  subOf (cl "DELETE") u || subOf (cl "CREATE") u || subOf (cl "ALTER") u ||
  subOf (cl "DROP") u || subOf (cl "WITH") u

/-- `_validate_syntax` (sql_validator.py:108-139).  The three string-level
checks accumulate in order.  The `parsed_stmt.ttype is tokens.Whitespace`
check never fires: a sqlparse `Statement` is a `TokenList` whose `ttype` is
always `None`, so it is omitted.  The statement-termination check only
`pass`es.  The body is total, so the `except` branch appending
`'Syntax validation error: ...'` is dead. -/
def validateSyntaxErrs (q : List Char) : List String :=
  let e1 : List String :=
    if q.count '(' ≠ q.count ')' then ["Unbalanced parentheses in query"] else []
  let e2 : List String :=
    if q.count '\'' % 2 ≠ 0 then ["Unbalanced single quotes in query"] else []
  let e3 : List String :=
    if !kwPresent (pyUpper q) then ["Query does not contain a recognized SQL statement type"] else []
  e1 ++ e2 ++ e3

/-- Keyword alternation of the validator's first injection pattern. -/
def vsecKw (h : List Char) : Bool :=
  (["union", "select", "insert", "delete", "update", "create", "drop", "exec", "execute"].map cl).any
    (fun kw => kw.isPrefixOf h)

/-- `('|(\')) ((\s|%20)+)?((\s|%20)+)? (union|select|...)`: a quote (bare or
backslash-escaped), an optional whitespace/`%20` gap, then a keyword. -/
def vsecPat1 : List Char → Bool :=
  reSearch (fun h =>
    mLit (cl "'") (mWsPctStar vsecKw) h || mLit (cl "\\'") (mWsPctStar vsecKw) h)

/-- `(union(\s|%20)+select)` -/
def vsecPat2 : List Char → Bool :=
  reSearch (mLit (cl "union") (mWsPctPlus (mLit (cl "select") mTrue)))

/-- `(select.*from.*information_schema)` -/
def vsecPat3 : List Char → Bool :=
  reSearch (mLit (cl "select") (mAnyNoNL (mLit (cl "from") (mAnyNoNL (mLit (cl "information_schema") mTrue)))))

/-- `(select.*from.*sys\.)` -/
def vsecPat4 : List Char → Bool :=
  reSearch (mLit (cl "select") (mAnyNoNL (mLit (cl "from") (mAnyNoNL (mLit (cl "sys.") mTrue)))))

/-- `(exec(\s|%20)+xp_)` -/
def vsecPat5 : List Char → Bool :=
  reSearch (mLit (cl "exec") (mWsPctPlus (mLit (cl "xp_") mTrue)))

/-- `(sp_executesql)` -/
def vsecPat6 : List Char → Bool := subOf (cl "sp_executesql")

/-- `(;\s*(drop|delete|truncate|update|insert))` -/
def vsecPat7 : List Char → Bool :=
  reSearch (mLit (cl ";") (mWsStar (fun h =>
    (["drop", "delete", "truncate", "update", "insert"].map cl).any (fun kw => kw.isPrefixOf h))))

/-- `self.injection_patterns` (sql_validator.py:22-30), paired with the raw
pattern text used in the finding message. -/
def validatorInjPatterns : List ((List Char → Bool) × String) :=
  [(vsecPat1, "('|(\\\\'))((\\s|%20)+)?((\\s|%20)+)?(union|select|insert|delete|update|create|drop|exec|execute)"),
   (vsecPat2, "(union(\\s|%20)+select)"),
   (vsecPat3, "(select.*from.*information_schema)"),
   (vsecPat4, "(select.*from.*sys\\.)"),
   (vsecPat5, "(exec(\\s|%20)+xp_)"),
   (vsecPat6, "(sp_executesql)"),
   (vsecPat7, "(;\\s*(drop|delete|truncate|update|insert))")]

/-- `_validate_security` (sql_validator.py:141-170).  All patterns are run
against the lowercased query (the extra `re.IGNORECASE` is a no-op on the
lowercase literals). -/
def validateSecurityIssues (q : List Char) : List String :=
  let qL := pyLower q
  let inj := validatorInjPatterns.foldl
    (fun acc p => if p.1 qL then acc ++ ["Potential SQL injection pattern detected: " ++ p.2] else acc) []
  let dang := (["xp_cmdshell", "sp_oacreate", "sp_oamethod", "openrowset", "opendatasource"]).foldl
    (fun acc f => if subOf (cl f) qL then acc ++ ["Dangerous function detected: " ++ f] else acc) inj
  let sysT :=
    if subOf (cl "sys.") qL || subOf (cl "information_schema.") qL then
      dang ++ ["Access to system tables detected - ensure this is intentional"]
    else dang
  if subOf (cl "exec(") qL || subOf (cl "execute(") qL then
    sysT ++ ["Dynamic SQL execution detected - ensure proper parameterization"]
  else sysT

/-- `select\s+\*` -/
def vperfSelectStar : List Char → Bool :=
  reSearch (mLit (cl "select") (mWsPlus (mLit (cl "*") mTrue)))

/-- The negative lookahead `(?!.*where)`: no later `where` is reachable
without crossing a newline (`.` does not match newlines). -/
def noWhereAhead (h : List Char) : Bool :=
  !(mAnyNoNL (mLit (cl "where") mTrue) h)

/-- `\s+(?!.*where)`: at least one whitespace character consumed such that at
the stopping point the lookahead succeeds (backtracking tries every split). -/
def wsPlusNotWhere : List Char → Bool
  | [] => false
  | c :: t => isPyWs c && (noWhereAhead t || wsPlusNotWhere t)

/-- `(update|delete)\s+(?!.*where)` -/
def vperfUpdDel : List Char → Bool :=
  reSearch (fun h => mLit (cl "update") wsPlusNotWhere h || mLit (cl "delete") wsPlusNotWhere h)

/-- `like\s+['\"]%` -/
def vperfLikeWild : List Char → Bool :=
  reSearch (mLit (cl "like") (mWsPlus (mCharIn ['\'', '"'] (mLit (cl "%") mTrue))))

/-- `where\s+.*\w+\s*\(.*\)\s*=` -/
def vperfFnWhere : List Char → Bool :=
  reSearch (mLit (cl "where") (mWsPlus (mAnyNoNL (mWordPlus (mWsStar (mLit (cl "(")
    (mAnyNoNL (mLit (cl ")") (mWsStar (mLit (cl "=") mTrue))))))))))

/-- `_analyze_performance` of the validator (sql_validator.py:172-215). -/
def validatePerformanceSuggestions (q : List Char) : List String :=
  let qL := pyLower q
  let s1 : List String :=
    if vperfSelectStar qL then ["Avoid SELECT * - specify only needed columns for better performance"] else []
  let s2 :=
    if vperfUpdDel qL then s1 ++ ["UPDATE/DELETE without WHERE clause detected - this will affect all rows"] else s1
  let s3 :=
    if vperfLikeWild qL then s2 ++ ["LIKE with leading wildcard (%) prevents index usage"] else s2
  let s4 :=
    if vperfFnWhere qL then s3 ++ ["Functions in WHERE clause may prevent index usage"] else s3
  let s5 :=
    if subOf (cl "order by") qL && !(subOf (cl "top") qL) && !(subOf (cl "limit") qL) then
      s4 ++ ["Consider using TOP clause with ORDER BY for better performance"]
    else s4
  let s6 :=
    if ((countSub (cl "select") qL : Int) - 1) > 2 then
      s5 ++ ["Consider using CTEs or JOINs instead of deeply nested subqueries"]
    else s5
  let s7 :=
    if subOf (cl "distinct") qL then s6 ++ ["DISTINCT operation can be expensive - ensure it's necessary"] else s6
  if subOf (cl "group by") qL &&
      !((["count(", "sum(", "avg(", "max(", "min("]).any (fun f => subOf (cl f) qL)) then
    s7 ++ ["GROUP BY without aggregate functions - consider if this is necessary"]
  else s7

/-- `'[0-9]{1,2}/[0-9]{1,2}/[0-9]{4}'` (run on the original-case query). -/
def vdateRe : List Char → Bool :=
  reSearch (mLit (cl "'") (mD12 (mLit (cl "/") (mD12 (mLit (cl "/") (mD4 (mLit (cl "'") mTrue)))))))

/-- `\bfrom\s+\w+\s+` -/
def vFromQualified : List Char → Bool :=
  reSearchBnd (mLit (cl "from") (mWsPlus (mWordPlus (mWsPlus mTrue))))

/-- `deprecated_features` (sql_validator.py:225-230), in dict insertion
order. -/
def deprecatedFeatures : List (String × String) :=
  [("text", "TEXT data type is deprecated, use VARCHAR(MAX)"),
   ("ntext", "NTEXT data type is deprecated, use NVARCHAR(MAX)"),
   ("image", "IMAGE data type is deprecated, use VARBINARY(MAX)"),
   ("timestamp", "TIMESTAMP is deprecated, use ROWVERSION")]

/-- `_validate_sqlserver_specifics` (sql_validator.py:217-251). -/
def validateSqlserverWarnings (q : List Char) : List String :=
  let qL := pyLower q
  let w1 := deprecatedFeatures.foldl
    (fun acc fm => if subOf (cl fm.1) qL then acc ++ [fm.2] else acc) []
  let w2 :=
    if vFromQualified qL && !(subOf (cl "dbo.") qL) then
      w1 ++ ["Consider using schema-qualified table names (e.g., dbo.TableName)"]
    else w1
  let w3 := if subOf (cl "nolock") qL then w2 ++ ["NOLOCK hint can cause dirty reads - use carefully"] else w2
  if vdateRe q then w3 ++ ["Use ISO date format (YYYY-MM-DD) for better portability"] else w3

/-- `_optimize_query` (sql_validator.py:253-274).  Modelled from the spec:
`sqlparse.format(..., reindent=True, keyword_case='upper', ...)` is an
external library call, abstracted as the formatting-only transform `fmt`
(§3 of the spec: `optimized_sql` is a formatting-only transform of
`raw_text`).  The trailing-semicolon append is the in-repo part. -/
def optimizeQuery (fmt : List Char → List Char) (q : List Char) : List Char :=
  let f := fmt q
  if (pyStrip f).getLast? = some ';' then f else f ++ [';']

/-- The result dictionary of `validate_and_optimize`. -/
structure VResult where
  is_valid : Bool
  errors : List String
  warnings : List String
  suggestions : List String
  optimized_sql : List Char
  security_issues : List String
deriving DecidableEq

/-- `validate_and_optimize` (sql_validator.py:32-106).  `parseExc` models the
`try/except` around `sqlparse.parse` (`some m` = the tokenizer raised with
message `m`); the `if not parsed` branch is unreachable because `sqlparse.parse`
returns a non-empty statement list for every non-empty input string, and
`parsed_stmt` itself feeds only dead checks downstream.  `fmt` is the abstract
`sqlparse.format` transform of `optimizeQuery`. -/
def validate_and_optimize (q : List Char) (parseExc : Option String)
    (fmt : List Char → List Char) : VResult :=
  if q = [] ∨ pyStrip q = [] then
    { is_valid := false, errors := ["SQL query is empty"], warnings := [],
      suggestions := [], optimized_sql := q, security_issues := [] }
  else if is_read_only_query q = false then
    { is_valid := false,
      errors := ["Only SELECT queries are allowed. UPDATE, INSERT, DELETE, DROP, and other modification statements are prohibited for security."],
      warnings := [], suggestions := [], optimized_sql := q, security_issues := [] }
  else
    match parseExc with
    | some m =>
        { is_valid := false, errors := ["SQL parsing error: " ++ m], warnings := [],
          suggestions := [], optimized_sql := q, security_issues := [] }
    | none =>
        let errs := validateSyntaxErrs q
        let sec := validateSecurityIssues q
        let sugg := validatePerformanceSuggestions q
        let warns := validateSqlserverWarnings q
        if errs = [] then
          { is_valid := true, errors := errs, warnings := warns, suggestions := sugg,
            optimized_sql := optimizeQuery fmt q, security_issues := sec }
        else
          { is_valid := false, errors := errs, warnings := warns, suggestions := sugg,
            optimized_sql := q, security_issues := sec }

/-! ### `query_feedback_service.py` : `QueryFeedbackService` -/

/-- A stage analyzer result: `{'score': ..., 'issues'/'suggestions'/'warnings': [...]}`. -/
structure StageRes where
  score : Int
  items : List String
deriving DecidableEq

/-- `';.*--` -/
def fsecPat1 : List Char → Bool :=
  reSearch (mLit (cl "';") (mAnyNoNL (mLit (cl "--") mTrue)))

/-- `UNION.*SELECT` -/
def fsecPat2 : List Char → Bool :=
  reSearch (mLit (cl "UNION") (mAnyNoNL (mLit (cl "SELECT") mTrue)))

/-- `DROP\s+TABLE` -/
def fsecPat3 : List Char → Bool :=
  reSearch (mLit (cl "DROP") (mWsPlus (mLit (cl "TABLE") mTrue)))

/-- `EXEC\s*\(` -/
def fsecPat4 : List Char → Bool :=
  reSearch (mLit (cl "EXEC") (mWsStar (mLit (cl "(") mTrue)))

/-- `SHUTDOWN` -/
def fsecPat5 : List Char → Bool := subOf (cl "SHUTDOWN")

/-- `xp_cmdshell` — run case-sensitively against the UPPERCASED query, as the
source does (query_feedback_service.py:303,308), so it can only fire on the
rare characters that survive `upper()` in lowercase. -/
def fsecPat6 : List Char → Bool := subOf (cl "xp_cmdshell")

/-- `sp_configure` — same remark as `fsecPat6`. -/
def fsecPat7 : List Char → Bool := subOf (cl "sp_configure")

/-- `injection_patterns` of `_analyze_security`
(query_feedback_service.py:297-305) with their warning texts. -/
def fsecInjPatterns : List ((List Char → Bool) × String) :=
  [(fsecPat1, "Potential SQL injection with comment termination"),
   (fsecPat2, "UNION-based injection pattern"),
   (fsecPat3, "Dangerous DROP statement"),
   (fsecPat4, "Dynamic SQL execution detected"),
   (fsecPat5, "System shutdown command"),
   (fsecPat6, "Command shell execution"),
   (fsecPat7, "System configuration access")]

/-- `PASSWORD\s*=|PWD\s*=` -/
def fsecCreds (qU : List Char) : Bool :=
  reSearch (fun h =>
    mLit (cl "PASSWORD") (mWsStar (mLit (cl "=") mTrue)) h ||
    mLit (cl "PWD") (mWsStar (mLit (cl "=") mTrue)) h) qU

/-- `WHERE\s+1\s*=\s*1` -/
def fsecPermissive (qU : List Char) : Bool :=
  reSearch (mLit (cl "WHERE") (mWsPlus (mLit (cl "1") (mWsStar (mLit (cl "=")
    (mWsStar (mLit (cl "1") mTrue))))))) qU

/-- `WHERE.*=\s*[@?]` — the parameterized-query bonus pattern, run against the
ORIGINAL-case query (query_feedback_service.py:323). -/
def fsecBonus (q : List Char) : Bool :=
  reSearch (mLit (cl "WHERE") (mAnyNoNL (mLit (cl "=") (mWsStar (mCharIn ['@', '?'] mTrue))))) q

/-- The `try` body of `_analyze_security` (query_feedback_service.py:288-325):
start at 100, −30 per injection-pattern match, −40 for credentials, −20 for
`WHERE 1=1`, +10 for a parameter marker.  No upper clamp exists in the
source; only the final `max(0, score)` floor, applied in `analyzeSecurityF`. -/
def analyzeSecurityRaw (q : List Char) : Int × List String :=
  let qU := pyUpper q
  let si1 := fsecInjPatterns.foldl
    (fun acc p => if p.1 qU then (acc.1 - 30, acc.2 ++ [p.2]) else acc)
    ((100 : Int), ([] : List String))
  let si2 := if fsecCreds qU then (si1.1 - 40, si1.2 ++ ["Hardcoded credentials detected"]) else si1
  let si3 := if fsecPermissive qU then (si2.1 - 20, si2.2 ++ ["Overly permissive WHERE clause (1=1)"]) else si2
  if fsecBonus q then (si3.1 + 10, si3.2 ++ ["Good: Parameterized query detected"]) else si3

/-- `_analyze_security` (query_feedback_service.py:288-334).  On an internal
exception the handler sets `score = 50` and appends the error finding; the
function returns `max(0, score)` with NO `min(100, ...)`. -/
def analyzeSecurityF (q : List Char) (exc : Option String) : StageRes :=
  match exc with
  | some m => { score := max 0 50, items := ["Security analysis error: " ++ m] }
  | none =>
      let r := analyzeSecurityRaw q
      { score := max 0 r.1, items := r.2 }

/-- `injection_patterns` of `_analyze_syntax` (query_feedback_service.py:140-145)
with the raw pattern text interpolated into the issue message.  They are run
against the stripped, uppercased query, so the same matchers as the security
stage apply for the shared patterns. -/
def fsynInjPatterns : List ((List Char → Bool) × String) :=
  [(fsecPat1, "';.*--"),
   (fsecPat2, "UNION.*SELECT"),
   (fsecPat3, "DROP\\s+TABLE"),
   (reSearch (mLit (cl "DELETE") (mWsPlus (mLit (cl "FROM") (mAnyNoNL (mLit (cl "WHERE")
      (mWsPlus (mLit (cl "1") (mWsStar (mLit (cl "=") (mWsStar (mLit (cl "1") mTrue))))))))))),
    "DELETE\\s+FROM.*WHERE\\s+1\\s*=\\s*1")]

/-- The `try` body of `_analyze_syntax` (query_feedback_service.py:120-159):
start at 100; −50 no statement keyword, −20 unmatched parentheses (counted on
the ORIGINAL query), −30 per injection pattern, −10 `SELECT *`, −5 no
filtering/sorting clause (the regex `WHERE|JOIN|GROUP BY|ORDER BY` is an
alternation of literals). -/
def analyzeSyntaxRaw (q : List Char) : Int × List String :=
  let qU := pyStrip (pyUpper q)
  let c1 := !(subOf (cl "SELECT") qU || subOf (cl "INSERT") qU ||
              subOf (cl "UPDATE") qU || subOf (cl "DELETE") qU)
  let c2 := q.count '(' != q.count ')'
  let s2 : Int := if c1 then 100 - 50 else 100
  let i2 : List String := if c1 then ["No valid SQL statement detected"] else []
  let s3 : Int := if c2 then s2 - 20 else s2
  let i3 : List String := if c2 then i2 ++ ["Unmatched parentheses"] else i2
  let si4 := fsynInjPatterns.foldl
    (fun acc p =>
      if p.1 qU then (acc.1 - 30, acc.2 ++ ["Potential SQL injection pattern detected: " ++ p.2])
      else acc)
    (s3, i3)
  let c4 := subOf (cl "SELECT *") qU
  let c5 := !(subOf (cl "WHERE") qU || subOf (cl "JOIN") qU ||
              subOf (cl "GROUP BY") qU || subOf (cl "ORDER BY") qU)
  let s5 : Int := if c4 then si4.1 - 10 else si4.1
  let i5 : List String := if c4 then si4.2 ++ ["Consider specifying column names instead of SELECT *"] else si4.2
  let s6 : Int := if c5 then s5 - 5 else s5
  let i6 : List String := if c5 then i5 ++ ["Query might benefit from filtering or sorting clauses"] else i5
  (s6, i6)

/-- `_analyze_syntax` (query_feedback_service.py:120-168).  NOTE: unlike the
other three stages, the exception handler sets `score = 0` (line 162), not 50;
the final `return` applies `max(0, score)`. -/
def analyzeSyntaxF (q : List Char) (exc : Option String) : StageRes :=
  match exc with
  | some m => { score := max 0 0, items := ["Syntax analysis error: " ++ m] }
  | none =>
      let r := analyzeSyntaxRaw q
      { score := max 0 r.1, items := r.2 }

/-- `intent_keywords` of `_analyze_semantic_alignment`
(query_feedback_service.py:183-196), in dict insertion order.  The mapped
"keywords" are checked by plain substring containment in the uppercased SQL,
so the entry `ORDER BY.*DESC` for `recent` is a literal, not a regex. -/
def intentKeywordTable : List (String × List String) :=
  [("retrieve", ["SELECT", "SHOW"]),
   ("count", ["COUNT", "SUM"]),
   ("filter", ["WHERE", "HAVING"]),
   ("sort", ["ORDER BY"]),
   ("group", ["GROUP BY"]),
   ("join", ["JOIN", "INNER JOIN", "LEFT JOIN"]),
   ("aggregate", ["SUM", "AVG", "COUNT", "MAX", "MIN"]),
   ("recent", ["ORDER BY.*DESC", "TOP", "LIMIT"]),
   ("total", ["SUM", "COUNT"]),
   ("average", ["AVG"]),
   ("maximum", ["MAX"]),
   ("minimum", ["MIN"])]

/-- `time_indicators` (query_feedback_service.py:218).  Note `"last month"`
is NOT in this list. -/
def timeIndicators : List String :=
  ["today", "yesterday", "last week", "this month", "recent"]

/-- The `try` body of `_analyze_semantic_alignment` after the
natural-language guard (query_feedback_service.py:179-222): base 70; −15/+5
per intent keyword; −10 per natural-language token found in the schema text
but missing from the SQL; −20 for a time indicator without date filtering
(the regex `DATE|GETDATE|NOW\(\)|CURDATE` is an alternation of literals). -/
def analyzeSemanticRaw (q nl schemaCtx : List Char) : Int × List String :=
  let nlL := pyLower nl
  let sqlU := pyUpper q
  let si1 := intentKeywordTable.foldl
    (fun acc ik =>
      if subOf (cl ik.1) nlL then
        if !((ik.2).any (fun kw => subOf (cl kw) sqlU)) then
          (acc.1 - 15, acc.2 ++ ["Natural language suggests '" ++ ik.1 ++ "' but SQL query doesn't reflect this"])
        else (acc.1 + 5, acc.2)
      else acc)
    ((70 : Int), ([] : List String))
  let si2 :=
    if schemaCtx = [] then si1
    else
      let schemaL := pyLower schemaCtx
      (wordTokens nlL).foldl
        (fun acc tok =>
          if subOf tok schemaL && !(subOf (pyUpper tok) sqlU) then
            (acc.1 - 10, acc.2 ++ ["Mentioned table '" ++ String.mk tok ++ "' not found in query"])
          else acc) si1
  let timeHit := timeIndicators.any (fun ti => subOf (cl ti) nlL)
  let noDate := !(subOf (cl "DATE") sqlU || subOf (cl "GETDATE") sqlU ||
                  subOf (cl "NOW()") sqlU || subOf (cl "CURDATE") sqlU)
  if timeHit && noDate then
    (si2.1 - 20, si2.2 ++ ["Natural language mentions time constraints but query lacks date filtering"])
  else si2

/-- `_analyze_semantic_alignment` (query_feedback_service.py:170-231).  An
empty natural-language string returns the unclamped base score 70 with a
single informational issue; otherwise the body result is clamped to [0,100];
an internal exception yields score 50 (clamped at return). -/
def analyzeSemanticF (q nl schemaCtx : List Char) (exc : Option String) : StageRes :=
  match exc with
  | some m => { score := max 0 (min 100 50), items := ["Semantic analysis error: " ++ m] }
  | none =>
      if nl = [] then { score := 70, items := ["No natural language context provided"] }
      else
        let r := analyzeSemanticRaw q nl schemaCtx
        { score := max 0 (min 100 r.1), items := r.2 }

/-- `WHERE.*LIKE\s+['\"]%.*%['\"]` -/
def fperfLikeWild : List Char → Bool :=
  reSearch (mLit (cl "WHERE") (mAnyNoNL (mLit (cl "LIKE") (mWsPlus (mCharIn ['\'', '"']
    (mLit (cl "%") (mAnyNoNL (mLit (cl "%") (mCharIn ['\'', '"'] mTrue)))))))))

/-- `LIMIT|TOP\s+\d+` -/
def fperfLimited : List Char → Bool := fun qU =>
  subOf (cl "LIMIT") qU || reSearch (mLit (cl "TOP") (mWsPlus (mDigitPlus mTrue))) qU

/-- The `try` body of `_analyze_performance`
(query_feedback_service.py:233-277): base 80 with the listed deductions and
bonuses. -/
def analyzePerformanceRaw (q : List Char) : Int × List String :=
  let qU := pyUpper q
  let c1 := subOf (cl "SELECT *") qU
  let c2 := fperfLikeWild qU
  let c3 := subOf (cl "ORDER BY") qU && !(subOf (cl "LIMIT") qU) && !(subOf (cl "TOP") qU)
  let c4 := ((countSub (cl "SELECT") qU : Int) - 1) > 2
  let c5 := (subOf (cl "UPDATE") qU || subOf (cl "DELETE") qU) && !(subOf (cl "WHERE") qU)
  let c6 := subOf (cl "DISTINCT") qU
  let c7 := subOf (cl "INDEX") qU || subOf (cl "INDEXED") qU
  let c8 := fperfLimited qU
  let s1 : Int := if c1 then 80 - 15 else 80
  let i1 : List String := if c1 then ["Replace SELECT * with specific column names to improve performance"] else []
  let s2 : Int := if c2 then s1 - 20 else s1
  let i2 := if c2 then i1 ++ ["Leading wildcard in LIKE clause can prevent index usage"] else i1
  let s3 : Int := if c3 then s2 - 10 else s2
  let i3 := if c3 then i2 ++ ["Consider adding LIMIT/TOP clause when ordering results"] else i2
  let s4 : Int := if c4 then s3 - 15 else s3
  let i4 := if c4 then i3 ++ ["Multiple subqueries detected - consider using JOINs for better performance"] else i3
  let s5 : Int := if c5 then s4 - 30 else s4
  let i5 := if c5 then i4 ++ ["UPDATE/DELETE without WHERE clause can affect performance and data integrity"] else i4
  let s6 : Int := if c6 then s5 - 5 else s5
  let i6 := if c6 then i5 ++ ["DISTINCT can be expensive - ensure it's necessary"] else i5
  let s7 : Int := if c7 then s6 + 10 else s6
  let i7 := if c7 then i6 ++ ["Good: Query appears to consider indexing"] else i6
  let s8 : Int := if c8 then s7 + 10 else s7
  let i8 := if c8 then i7 ++ ["Good: Query limits result set size"] else i7
  (s8, i8)

/-- `_analyze_performance` (query_feedback_service.py:233-286): result clamped
to [0,100]; an internal exception yields score 50. -/
def analyzePerformanceF (q : List Char) (exc : Option String) : StageRes :=
  match exc with
  | some m => { score := max 0 (min 100 50), items := ["Performance analysis error: " ++ m] }
  | none =>
      let r := analyzePerformanceRaw q
      { score := max 0 (min 100 r.1), items := r.2 }

/-- The outcome of `cursor.execute(...)`/`fetchall()` on a statement: either
the column names, the fetched rows and the elapsed seconds, or a raised
database error message. -/
inductive DbExec where
  | ok (columns : List String) (rows : List (List String)) (elapsed : ℚ)
  | err (msg : String)
deriving DecidableEq

/-- The result dictionary of `_test_query_execution`, with `Option` fields for
keys that are absent on some paths, plus `sent`: the statement that was passed
to `cursor.execute` (`none` = nothing was ever sent to the database).  `sent`
instruments the model; it is not part of the Python return value. -/
structure TestExecResult where
  success : Bool
  error : Option String
  executionTime : ℚ
  rowCount : Option Nat
  columns : Option (List String)
  sampleData : Option (List (List String))
  sent : Option (List Char)
deriving DecidableEq

/-- `_test_query_execution` (query_feedback_service.py:336-392).  `connect`
is the outcome of `pyodbc.connect` (an `.error m` also covers the
`PYODBC_AVAILABLE`/missing-connection guard, whose message is
`'Database connection not available'`); `oracle` models
`cursor.execute`/`fetchall` on the statement actually submitted.  Inside a
live connection: only statements whose stripped uppercased text starts with
`SELECT` are executed; a `TOP 100` cap is spliced in by replacing the first
occurrence of the (case-sensitive) substring `SELECT` when neither `LIMIT`
nor `TOP` occurs in the uppercased text. -/
def testQueryExecution (connect : Except String Unit) (oracle : List Char → DbExec)
    (q : List Char) : TestExecResult :=
  match connect with
  | .error m =>
      { success := false, error := some m, executionTime := 0, rowCount := none,
        columns := none, sampleData := none, sent := none }
  | .ok _ =>
      if !((cl "SELECT").isPrefixOf (pyUpper (pyStrip q))) then
        { success := false, error := some "Only SELECT queries are executed for safety",
          executionTime := 0, rowCount := none, columns := none, sampleData := none, sent := none }
      else
        let limited :=
          if !(subOf (cl "LIMIT") (pyUpper q)) && !(subOf (cl "TOP") (pyUpper q)) then
            replaceFirst (cl "SELECT") (cl "SELECT TOP 100") q
          else q
        match oracle limited with
        | .ok cols rows t =>
            { success := true, error := none, executionTime := t,
              rowCount := some rows.length, columns := some cols,
              sampleData := some (rows.take 5), sent := some limited }
        | .err m =>
            { success := false, error := some m, executionTime := 0, rowCount := none,
              columns := none, sampleData := none, sent := some limited }

/-- `_generate_recommendations` (query_feedback_service.py:394-434): one
tiered line by overall band, one targeted line per low sub-score, then an
execution-time note (the body is total, so its `except` is dead). -/
def generateRecommendations (overall : ℚ) (synS semS perfS secS : Int)
    (execR : Option TestExecResult) : List String :=
  let r1 : List String :=
    if overall ≥ 90 then ["Excellent query! This SQL appears to be well-structured and efficient."]
    else if overall ≥ 70 then ["Good query with room for minor improvements."]
    else if overall ≥ 50 then ["Query needs attention in several areas for optimal performance."]
    else ["Query requires significant improvements before production use."]
  let r2 := if synS < 70 then r1 ++ ["Review SQL syntax and fix any structural issues."] else r1
  let r3 := if semS < 70 then r2 ++ ["Ensure the query accurately reflects the natural language intent."] else r2
  let r4 := if perfS < 70 then r3 ++ ["Consider performance optimizations like indexing and query restructuring."] else r3
  let r5 := if secS < 80 then r4 ++ ["Address security concerns before using this query in production."] else r4
  match execR with
  | some er =>
      if er.success then
        if er.executionTime > 5 then r5 ++ ["Query execution time is high - consider optimization."]
        else if er.executionTime < (1 : ℚ) / 10 then r5 ++ ["Good: Query executes efficiently."]
        else r5
      else r5
  | none => r5

/-- Injected runtime-exception switches for the four stage analyzers
(`none` everywhere = normal execution). -/
structure StageExcs where
  synE : Option String
  semE : Option String
  perfE : Option String
  secE : Option String

/-- No injected stage exception: the bodies are total, so this is the actual
behaviour of the Python service. -/
def noExc : StageExcs := ⟨none, none, none, none⟩

/-- `feedback['analysis']`. -/
structure QFAnalysis where
  synScore : Int
  semScore : Int
  perfScore : Int
  secScore : Int
  overallScore : ℚ
deriving DecidableEq

/-- `feedback['feedback']`. -/
structure QFIssues where
  synIssues : List String
  semIssues : List String
  perfSuggestions : List String
  secWarnings : List String
  corrIssues : List String
deriving DecidableEq

/-- The feedback dictionary returned by `analyze_query_quality` (the
`timestamp` field and the append to the in-memory `feedback_history` are
outside the pure model). -/
structure QualityFeedback where
  query : List Char
  naturalLanguage : List Char
  analysis : QFAnalysis
  issues : QFIssues
  executionResults : Option TestExecResult
  recommendations : List String
deriving DecidableEq

/-- `analyze_query_quality` (query_feedback_service.py:27-118).  `connInfo`
models the optional `connection_info` argument: when present it carries the
`pyodbc.connect` outcome and the execution oracle for
`_test_query_execution`.  On execution success the syntax sub-score gains 20
(capped at 100); on failure it loses 30 (floored at 0) and the error message
is appended to `correctness_issues`.  The overall score is the
0.3/0.3/0.2/0.2 weighted sum of the (post-adjustment) sub-scores.  The outer
`try/except` cannot fire: every stage catches its own exceptions. -/
def analyzeQueryQuality (q schemaCtx nl : List Char) (excs : StageExcs)
    (connInfo : Option ((Except String Unit) × (List Char → DbExec))) : QualityFeedback :=
  let syn := analyzeSyntaxF q excs.synE
  let sem := analyzeSemanticF q nl schemaCtx excs.semE
  let perf := analyzePerformanceF q excs.perfE
  let sec := analyzeSecurityF q excs.secE
  let execR : Option TestExecResult := connInfo.map (fun ci => testQueryExecution ci.1 ci.2 q)
  let synAdj : Int :=
    match execR with
    | some er => if er.success then min 100 (syn.score + 20) else max 0 (syn.score - 30)
    | none => syn.score
  let corr : List String :=
    match execR with
    | some er => if er.success then [] else ["Query execution failed: " ++ er.error.getD "Unknown error"]
    | none => []
  let overall : ℚ :=
    (synAdj : ℚ) * (3 / 10) + (sem.score : ℚ) * (3 / 10) +
    (perf.score : ℚ) * (2 / 10) + (sec.score : ℚ) * (2 / 10)
  { query := q, naturalLanguage := nl,
    analysis := { synScore := synAdj, semScore := sem.score, perfScore := perf.score,
                  secScore := sec.score, overallScore := overall },
    issues := { synIssues := syn.items, semIssues := sem.items, perfSuggestions := perf.items,
                secWarnings := sec.items, corrIssues := corr },
    executionResults := execR,
    recommendations := generateRecommendations overall synAdj sem.score perf.score sec.score execR }

/-- The per-pattern match vector of the security stage: the seven injection
patterns in table order, then the credentials check, then the permissive
`WHERE 1=1` check. -/
def secMatches (q : List Char) : List Bool :=
  (fsecInjPatterns.map (fun p => p.1 (pyUpper q))) ++
    [fsecCreds (pyUpper q), fsecPermissive (pyUpper q)]

/-- The penalties deducted for the nine checks, in the same order. -/
def secWeights : List Int := [30, 30, 30, 30, 30, 30, 30, 40, 20]

/-- Total penalty deducted by `_analyze_security` for `q`. -/
def secPenalty (q : List Char) : Int :=
  (List.zipWith (fun b w => if b then w else (0 : Int)) (secMatches q) secWeights).sum

/-- Whether `q` matches the `i`-th entry of the security pattern table
(the seven injection patterns in order, then credentials, then the
permissive `WHERE 1=1` check). -/
def secMatchAt (q : List Char) : Fin 9 → Bool
  | 0 => fsecPat1 (pyUpper q)
  | 1 => fsecPat2 (pyUpper q)
  | 2 => fsecPat3 (pyUpper q)
  | 3 => fsecPat4 (pyUpper q)
  | 4 => fsecPat5 (pyUpper q)
  | 5 => fsecPat6 (pyUpper q)
  | 6 => fsecPat7 (pyUpper q)
  | 7 => fsecCreds (pyUpper q)
  | 8 => fsecPermissive (pyUpper q)

/-! ### Helper lemmas -/

/-- The score component of a penalty fold never increases past its initial
value when every step is non-increasing. -/
theorem foldl_fst_le {α : Type} (step : (Int × List String) → α → (Int × List String))
    (hstep : ∀ acc a, (step acc a).1 ≤ acc.1) (l : List α) :
    ∀ acc, (l.foldl step acc).1 ≤ acc.1 := by
  induction l with
  | nil => intro acc; simp
  | cons a t ih => intro acc; exact le_trans (ih (step acc a)) (hstep acc a)

/-- Exact score of the −30-per-match fold of `_analyze_security`. -/
theorem foldl_sec_fst (qU : List Char) (l : List ((List Char → Bool) × String)) :
    ∀ (s : Int) (iss : List String),
      ((l.foldl (fun acc p => if p.1 qU then (acc.1 - 30, acc.2 ++ [p.2]) else acc) (s, iss)).1)
        = s - (l.map (fun p => if p.1 qU then (30 : Int) else 0)).sum := by
  induction l with
  | nil => intro s iss; simp
  | cons a t ih =>
      intro s iss
      by_cases h : a.1 qU
      · simp only [List.foldl_cons, List.map_cons, List.sum_cons, h, if_pos, ih]
        ring
      · simp only [List.foldl_cons, List.map_cons, List.sum_cons, h, if_neg, ih,
          Bool.false_eq_true, ite_false]
        ring

/-- A conditional deduction never increases the score. -/
theorem ite_sub_le (c : Prop) [Decidable c] (x d : Int) (hd : 0 ≤ d) :
    (if c then x - d else x) ≤ x := by
  split <;> omega

/-- Clamping to [0,100]. -/
theorem clamp01 (x : Int) : 0 ≤ max 0 (min 100 x) ∧ max 0 (min 100 x) ≤ 100 :=
  ⟨le_max_left 0 _, max_le (by norm_num) (min_le_left _ _)⟩

/-- Weighted indicator terms are monotone under implication of the
indicators. -/
theorem ite_weight_le {b1 b2 : Bool} (w : Int) (hw : 0 ≤ w) (h : b2 = true → b1 = true) :
    (if b2 = true then w else 0) ≤ (if b1 = true then w else 0) := by
  cases b2 <;> cases b1 <;> simp_all

/-- The total penalty splits into the injection fold part plus the two extra
checks. -/
theorem secPenalty_split (q : List Char) :
    secPenalty q =
      (fsecInjPatterns.map (fun p => if p.1 (pyUpper q) then (30 : Int) else 0)).sum
        + (if fsecCreds (pyUpper q) then (40 : Int) else 0)
        + (if fsecPermissive (pyUpper q) then (20 : Int) else 0) := by
  simp only [secPenalty, secMatches, secWeights, fsecInjPatterns, List.map_cons, List.map_nil,
    List.cons_append, List.nil_append, List.zipWith_cons_cons, List.zipWith_nil_right,
    List.sum_cons, List.sum_nil]
  ring

/-- The raw security score equals 100 minus the total penalty plus the
parameter-marker bonus. -/
theorem analyzeSecurityRaw_fst_eq (q : List Char) :
    (analyzeSecurityRaw q).1 =
      100 - secPenalty q + (if fsecBonus q then (10 : Int) else 0) := by
  have hfold := foldl_sec_fst (pyUpper q) fsecInjPatterns 100 []
  simp only [analyzeSecurityRaw]
  rw [secPenalty_split]
  cases hc : fsecCreds (pyUpper q) <;> cases hp : fsecPermissive (pyUpper q) <;>
    cases hb : fsecBonus q <;>
      simp only [hc, hp, hb, Bool.false_eq_true, ite_true, ite_false, hfold] <;> ring

/-- The reported security score, in closed form. -/
theorem analyzeSecurityF_score_eq (q : List Char) :
    (analyzeSecurityF q none).score =
      max 0 (100 - secPenalty q + (if fsecBonus q then (10 : Int) else 0)) := by
  simp only [analyzeSecurityF, analyzeSecurityRaw_fst_eq]

/-- The total security penalty is non-negative. -/
theorem secPenalty_nonneg (q : List Char) : 0 ≤ secPenalty q := by
  have h : ∀ (b : Bool) (w : Int), 0 ≤ w → 0 ≤ (if b = true then w else 0) := by
    intro b w hw; cases b <;> simp [hw]
  rw [secPenalty_split]
  refine add_nonneg (add_nonneg ?_ (h _ _ (by norm_num))) (h _ _ (by norm_num))
  simp only [fsecInjPatterns, List.map_cons, List.map_nil, List.sum_cons, List.sum_nil]
  repeat' apply add_nonneg
  all_goals first | exact h _ _ (by norm_num) | norm_num

/-- The raw syntax score never exceeds its 100 starting value (the stage only
deducts). -/
theorem analyzeSyntaxRaw_fst_le (q : List Char) : (analyzeSyntaxRaw q).1 ≤ 100 := by
  have hstep : ∀ (acc : Int × List String) (p : (List Char → Bool) × String),
      ((if p.1 (pyStrip (pyUpper q)) then
          (acc.1 - 30, acc.2 ++ ["Potential SQL injection pattern detected: " ++ p.2])
        else acc)).1 ≤ acc.1 := by
    intro acc p; split <;> simp
  have hf := foldl_fst_le _ hstep fsynInjPatterns
  simp only [analyzeSyntaxRaw]
  refine le_trans (ite_sub_le _ _ 5 (by norm_num)) ?_
  refine le_trans (ite_sub_le _ _ 10 (by norm_num)) ?_
  refine le_trans (hf _) ?_
  refine le_trans (ite_sub_le _ _ 20 (by norm_num)) ?_
  split <;> norm_num

/-- Bounds of the reported syntax stage score. -/
theorem analyzeSyntaxF_score_bounds (q : List Char) (e : Option String) :
    0 ≤ (analyzeSyntaxF q e).score ∧ (analyzeSyntaxF q e).score ≤ 100 := by
  cases e with
  | none =>
      exact ⟨le_max_left 0 _, max_le (by norm_num) (analyzeSyntaxRaw_fst_le q)⟩
  | some m => exact ⟨le_max_left 0 _, by norm_num [analyzeSyntaxF]⟩

/-- Bounds of the reported semantic stage score. -/
theorem analyzeSemanticF_score_bounds (q nl sc : List Char) (e : Option String) :
    0 ≤ (analyzeSemanticF q nl sc e).score ∧ (analyzeSemanticF q nl sc e).score ≤ 100 := by
  cases e with
  | none =>
      simp only [analyzeSemanticF]
      split
      · norm_num
      · exact clamp01 _
  | some m => exact clamp01 _

/-- Bounds of the reported performance stage score. -/
theorem analyzePerformanceF_score_bounds (q : List Char) (e : Option String) :
    0 ≤ (analyzePerformanceF q e).score ∧ (analyzePerformanceF q e).score ≤ 100 := by
  cases e with
  | none => exact clamp01 _
  | some m => exact clamp01 _

/-- Bounds of the reported security stage score: floored at 0, but only
bounded above by 110 (the +10 parameter bonus is not clamped). -/
theorem analyzeSecurityF_score_bounds (q : List Char) (e : Option String) :
    0 ≤ (analyzeSecurityF q e).score ∧ (analyzeSecurityF q e).score ≤ 110 := by
  cases e with
  | none =>
      refine ⟨le_max_left 0 _, ?_⟩
      rw [analyzeSecurityF_score_eq]
      have hp := secPenalty_nonneg q
      have hb : (if fsecBonus q then (10 : Int) else 0) ≤ 10 := by split <;> norm_num
      exact max_le (by norm_num) (by omega)
  | some m => exact ⟨le_max_left 0 _, by norm_num [analyzeSecurityF]⟩

/-! ### Claim theorems -/

/-- C2: for every input (and any tokenizer/formatter behaviour),
`validate_and_optimize` returns `is_valid = true` if and only if the returned
`errors` list is empty and the input is lexically read-only (its
comment-stripped, trimmed, uppercased text begins with SELECT or WITH, which
is exactly `is_read_only_query`). -/
theorem c2_is_valid_iff (q : List Char) (pe : Option String) (fmt : List Char → List Char) :
    (validate_and_optimize q pe fmt).is_valid = true ↔
      ((validate_and_optimize q pe fmt).errors = [] ∧ is_read_only_query q = true) := by
  cases pe with
  | some m =>
      simp only [validate_and_optimize]
      split_ifs <;> simp
  | none =>
      simp only [validate_and_optimize]
      split_ifs with h1 h2 h3
      · simp
      · simp
      · have hro : is_read_only_query q = true := by
          revert h2; cases is_read_only_query q <;> simp
        simp [h3, hro]
      · simp [h3]

/-- C3: every input that is not lexically read-only (including the empty
input) is rejected with `is_valid = false`, exactly one fatal error, and
empty `security_issues`, `suggestions` and `warnings` lists: the analysis
stages are skipped. -/
theorem c3_reject_single_error (q : List Char) (pe : Option String)
    (fmt : List Char → List Char) (hro : is_read_only_query q = false) :
    (validate_and_optimize q pe fmt).is_valid = false ∧
    (validate_and_optimize q pe fmt).errors.length = 1 ∧
    (validate_and_optimize q pe fmt).security_issues = [] ∧
    (validate_and_optimize q pe fmt).suggestions = [] ∧
    (validate_and_optimize q pe fmt).warnings = [] := by
  simp only [validate_and_optimize, hro]
  split_ifs
  all_goals simp

/-- Witness for C3 at the spec's Example 4 input `"DROP TABLE users"`. -/
theorem c3_witness :
    is_read_only_query (cl "DROP TABLE users") = false ∧
    (validate_and_optimize (cl "DROP TABLE users") none (fun l => l)).is_valid = false ∧
    (validate_and_optimize (cl "DROP TABLE users") none (fun l => l)).errors.length = 1 ∧
    (validate_and_optimize (cl "DROP TABLE users") none (fun l => l)).security_issues = [] ∧
    (validate_and_optimize (cl "DROP TABLE users") none (fun l => l)).suggestions = [] ∧
    (validate_and_optimize (cl "DROP TABLE users") none (fun l => l)).warnings = [] := by
  have h : is_read_only_query (cl "DROP TABLE users") = false := by decide
  exact ⟨h, c3_reject_single_error (cl "DROP TABLE users") none (fun l => l) h⟩

/-- C1 counterexample: on `"SELECT a FROM t WHERE x = @p"` (no penalty
matches, parameterized-query bonus fires) the security sub-score returned by
`analyze_query_quality` is 110, outside [0,100]: `_analyze_security` returns
`max(0, score)` with no upper clamp. -/
theorem c1_counterexample :
    (analyzeQueryQuality (cl "SELECT a FROM t WHERE x = @p") [] [] noExc none).analysis.secScore
        = 110 ∧
    ¬((analyzeQueryQuality (cl "SELECT a FROM t WHERE x = @p") [] [] noExc none).analysis.secScore
        ≤ 100) := by
  constructor
  · decide
  · decide

/-- C1 (amended): for every submission the overall score equals
`0.3*syntax + 0.3*semantic + 0.2*performance + 0.2*security` over the
returned sub-scores; the syntax sub-score (including after any
execution-based adjustment), the semantic sub-score and the performance
sub-score lie in [0,100]; the security sub-score is floored at 0 but is NOT
clamped above: it is only bounded by 110 (at most one +10 parameterized-query
bonus over the 100 start). -/
theorem c1_weights_and_bounds (q sc nl : List Char)
    (ci : Option ((Except String Unit) × (List Char → DbExec))) :
    (analyzeQueryQuality q sc nl noExc ci).analysis.overallScore =
        ((analyzeQueryQuality q sc nl noExc ci).analysis.synScore : ℚ) * (3 / 10)
      + ((analyzeQueryQuality q sc nl noExc ci).analysis.semScore : ℚ) * (3 / 10)
      + ((analyzeQueryQuality q sc nl noExc ci).analysis.perfScore : ℚ) * (2 / 10)
      + ((analyzeQueryQuality q sc nl noExc ci).analysis.secScore : ℚ) * (2 / 10) ∧
    (0 ≤ (analyzeQueryQuality q sc nl noExc ci).analysis.synScore ∧
      (analyzeQueryQuality q sc nl noExc ci).analysis.synScore ≤ 100) ∧
    (0 ≤ (analyzeQueryQuality q sc nl noExc ci).analysis.semScore ∧
      (analyzeQueryQuality q sc nl noExc ci).analysis.semScore ≤ 100) ∧
    (0 ≤ (analyzeQueryQuality q sc nl noExc ci).analysis.perfScore ∧
      (analyzeQueryQuality q sc nl noExc ci).analysis.perfScore ≤ 100) ∧
    (0 ≤ (analyzeQueryQuality q sc nl noExc ci).analysis.secScore ∧
      (analyzeQueryQuality q sc nl noExc ci).analysis.secScore ≤ 110) := by
  refine ⟨rfl, ?_, ?_, ?_, ?_⟩
  · have hb := analyzeSyntaxF_score_bounds q none
    simp only [analyzeQueryQuality, noExc]
    cases ci with
    | none => simpa using hb
    | some c =>
        simp only [Option.map_some']
        split_ifs with hs
        · constructor
          · exact le_min (by norm_num) (by omega)
          · exact min_le_left _ _
        · constructor
          · exact le_max_left 0 _
          · exact max_le (by norm_num) (by omega)
  · simpa only [analyzeQueryQuality, noExc] using analyzeSemanticF_score_bounds q nl sc none
  · simpa only [analyzeQueryQuality, noExc] using analyzePerformanceF_score_bounds q none
  · simpa only [analyzeQueryQuality, noExc] using analyzeSecurityF_score_bounds q none

/-- C4 counterexample: an exception in the syntax stage defaults that stage's
score to 0, not to the midpoint 50 claimed for every stage
(query_feedback_service.py:162 sets `score = 0`). -/
theorem c4_counterexample :
    (analyzeSyntaxF (cl "SELECT 1") (some "boom")).score = 0 ∧
    (analyzeSyntaxF (cl "SELECT 1") (some "boom")).score ≠ 50 := by
  constructor
  · decide
  · decide

/-- C4 (amended): an exception inside a stage is caught there and converted
into the single finding `"<Stage> analysis error: <message>"`; the semantic,
performance and security stages default their score to 50, but the SYNTAX
stage defaults to 0; the other stages' results are unaffected and still
returned by `analyze_query_quality`. -/
theorem c4_stage_exception_defaults (q sc nl : List Char) (m : String) :
    (analyzeSyntaxF q (some m)).score = 0 ∧
    (analyzeSyntaxF q (some m)).items = ["Syntax analysis error: " ++ m] ∧
    (analyzeSemanticF q nl sc (some m)).score = 50 ∧
    (analyzeSemanticF q nl sc (some m)).items = ["Semantic analysis error: " ++ m] ∧
    (analyzePerformanceF q (some m)).score = 50 ∧
    (analyzePerformanceF q (some m)).items = ["Performance analysis error: " ++ m] ∧
    (analyzeSecurityF q (some m)).score = 50 ∧
    (analyzeSecurityF q (some m)).items = ["Security analysis error: " ++ m] ∧
    (analyzeQueryQuality q sc nl ⟨some m, none, none, none⟩ none).analysis.synScore = 0 ∧
    (analyzeQueryQuality q sc nl ⟨some m, none, none, none⟩ none).issues.synIssues
        = ["Syntax analysis error: " ++ m] ∧
    (analyzeQueryQuality q sc nl ⟨some m, none, none, none⟩ none).analysis.semScore
        = (analyzeSemanticF q nl sc none).score ∧
    (analyzeQueryQuality q sc nl ⟨some m, none, none, none⟩ none).analysis.perfScore
        = (analyzePerformanceF q none).score ∧
    (analyzeQueryQuality q sc nl ⟨some m, none, none, none⟩ none).analysis.secScore
        = (analyzeSecurityF q none).score := by
  refine ⟨by norm_num [analyzeSyntaxF], rfl, by norm_num [analyzeSemanticF], rfl,
    by norm_num [analyzePerformanceF], rfl, by norm_num [analyzeSecurityF], rfl,
    by norm_num [analyzeQueryQuality, analyzeSyntaxF], rfl, rfl, rfl, rfl⟩

/-- C5 counterexample: on natural language `"show me total sales last month"`
and SQL `"SELECT name FROM products"`, the semantic issues consist of the
missing-aggregate finding ONLY — no missing-date-filter issue is raised,
because `"last month"` is not among the time indicators
(`today`, `yesterday`, `last week`, `this month`, `recent`). -/
theorem c5_counterexample :
    (analyzeSemanticF (cl "SELECT name FROM products")
        (cl "show me total sales last month") [] none).items
      = ["Natural language suggests 'total' but SQL query doesn't reflect this"] ∧
    "Natural language mentions time constraints but query lacks date filtering" ∉
      (analyzeSemanticF (cl "SELECT name FROM products")
        (cl "show me total sales last month") [] none).items := by
  constructor
  · decide
  · decide

/-- C5 (amended): on the Example-3 inputs the semantic stage scores
70 − 15 = 55 < 70 and flags the missing aggregate for `'total'`, but it does
NOT flag a missing date filter for `'last month'`, since that phrase is not a
recognized time indicator. -/
theorem c5_semantic_example :
    (analyzeSemanticF (cl "SELECT name FROM products")
        (cl "show me total sales last month") [] none).score = 55 ∧
    (analyzeSemanticF (cl "SELECT name FROM products")
        (cl "show me total sales last month") [] none).score < 70 ∧
    "Natural language suggests 'total' but SQL query doesn't reflect this" ∈
      (analyzeSemanticF (cl "SELECT name FROM products")
        (cl "show me total sales last month") [] none).items ∧
    "Natural language mentions time constraints but query lacks date filtering" ∉
      (analyzeSemanticF (cl "SELECT name FROM products")
        (cl "show me total sales last month") [] none).items := by
  refine ⟨by decide, by decide, by decide, by decide⟩

/-- C6: the security score is monotonically non-increasing in the set of
matched entries of the security pattern table.  If two queries have the same
parameterized-bonus status and `q1` matches a superset of the entries matched
by `q2`, then `q1`'s security score is at most `q2`'s: each match deducts a
fixed per-entry penalty from the 100 start, with a floor of 0. -/
theorem c6_security_monotone (q1 q2 : List Char)
    (hb : fsecBonus q1 = fsecBonus q2)
    (hsup : ∀ i : Fin 9, secMatchAt q2 i = true → secMatchAt q1 i = true) :
    (analyzeSecurityF q1 none).score ≤ (analyzeSecurityF q2 none).score := by
  have h0 : fsecPat1 (pyUpper q2) = true → fsecPat1 (pyUpper q1) = true := hsup ⟨0, by norm_num⟩
  have h1 : fsecPat2 (pyUpper q2) = true → fsecPat2 (pyUpper q1) = true := hsup ⟨1, by norm_num⟩
  have h2 : fsecPat3 (pyUpper q2) = true → fsecPat3 (pyUpper q1) = true := hsup ⟨2, by norm_num⟩
  have h3 : fsecPat4 (pyUpper q2) = true → fsecPat4 (pyUpper q1) = true := hsup ⟨3, by norm_num⟩
  have h4 : fsecPat5 (pyUpper q2) = true → fsecPat5 (pyUpper q1) = true := hsup ⟨4, by norm_num⟩
  have h5 : fsecPat6 (pyUpper q2) = true → fsecPat6 (pyUpper q1) = true := hsup ⟨5, by norm_num⟩
  have h6 : fsecPat7 (pyUpper q2) = true → fsecPat7 (pyUpper q1) = true := hsup ⟨6, by norm_num⟩
  have h7 : fsecCreds (pyUpper q2) = true → fsecCreds (pyUpper q1) = true := hsup ⟨7, by norm_num⟩
  have h8 : fsecPermissive (pyUpper q2) = true → fsecPermissive (pyUpper q1) = true :=
    hsup ⟨8, by norm_num⟩
  have hpen : secPenalty q2 ≤ secPenalty q1 := by
    rw [secPenalty_split q1, secPenalty_split q2]
    simp only [fsecInjPatterns, List.map_cons, List.map_nil, List.sum_cons, List.sum_nil]
    have k0 := ite_weight_le 30 (by norm_num) h0
    have k1 := ite_weight_le 30 (by norm_num) h1
    have k2 := ite_weight_le 30 (by norm_num) h2
    have k3 := ite_weight_le 30 (by norm_num) h3
    have k4 := ite_weight_le 30 (by norm_num) h4
    have k5 := ite_weight_le 30 (by norm_num) h5
    have k6 := ite_weight_le 30 (by norm_num) h6
    have k7 := ite_weight_le 40 (by norm_num) h7
    have k8 := ite_weight_le 20 (by norm_num) h8
    linarith [k0, k1, k2, k3, k4, k5, k6, k7, k8]
  rw [analyzeSecurityF_score_eq q1, analyzeSecurityF_score_eq q2, hb]
  exact max_le_max le_rfl (by omega)

/-- Witness for C6: `"SELECT a SHUTDOWN"` matches a superset (the SHUTDOWN
entry) of what the clean `"SELECT a"` matches (nothing), with equal bonus
status, and scores 70 ≤ 100. -/
theorem c6_witness :
    (analyzeSecurityF (cl "SELECT a SHUTDOWN") none).score ≤
      (analyzeSecurityF (cl "SELECT a") none).score :=
  c6_security_monotone (cl "SELECT a SHUTDOWN") (cl "SELECT a") (by decide) (by decide)

/-- C7: with a connection supplied, `analyze_query_quality` still returns a
complete verdict.  On execution failure: `execution_results` carries the
failed result, `correctness_issues` contains the execution error message
(inside `"Query execution failed: ..."`), and the syntax sub-score is the
pre-execution score minus 30, floored at 0.  On success the syntax sub-score
is the pre-execution score plus 20, capped at 100, with no correctness
issue. -/
theorem c7_execution_adjustment (q sc nl : List Char) (cn : Except String Unit)
    (orc : List Char → DbExec) :
    ((testQueryExecution cn orc q).success = false →
      (analyzeQueryQuality q sc nl noExc (some (cn, orc))).analysis.synScore
          = max 0 ((analyzeSyntaxF q none).score - 30) ∧
      (analyzeQueryQuality q sc nl noExc (some (cn, orc))).issues.corrIssues
          = ["Query execution failed: "
              ++ ((testQueryExecution cn orc q).error.getD "Unknown error")] ∧
      (analyzeQueryQuality q sc nl noExc (some (cn, orc))).executionResults
          = some (testQueryExecution cn orc q)) ∧
    ((testQueryExecution cn orc q).success = true →
      (analyzeQueryQuality q sc nl noExc (some (cn, orc))).analysis.synScore
          = min 100 ((analyzeSyntaxF q none).score + 20) ∧
      (analyzeQueryQuality q sc nl noExc (some (cn, orc))).issues.corrIssues = [] ∧
      (analyzeQueryQuality q sc nl noExc (some (cn, orc))).executionResults
          = some (testQueryExecution cn orc q)) := by
  constructor
  · intro hf
    refine ⟨?_, ?_, ?_⟩ <;> simp [analyzeQueryQuality, noExc, hf]
  · intro ht
    refine ⟨?_, ?_, ?_⟩ <;> simp [analyzeQueryQuality, noExc, ht]

/-- Witness for C7 at the spec's Example 5: the oracle raises
`"Invalid column name 'foo'"`; the verdict reports the failure, carries the
message in `correctness_issues`, and the syntax sub-score drops from its
pre-execution 95 to 65. -/
theorem c7_witness :
    (testQueryExecution (.ok ()) (fun _ => .err "Invalid column name 'foo'")
        (cl "SELECT foo FROM t")).success = false ∧
    (analyzeQueryQuality (cl "SELECT foo FROM t") [] [] noExc
        (some (.ok (), fun _ => .err "Invalid column name 'foo'"))).analysis.synScore = 65 ∧
    (analyzeQueryQuality (cl "SELECT foo FROM t") [] [] noExc
        (some (.ok (), fun _ => .err "Invalid column name 'foo'"))).issues.corrIssues
      = ["Query execution failed: Invalid column name 'foo'"] := by
  have hf : (testQueryExecution (.ok ()) (fun _ => .err "Invalid column name 'foo'")
      (cl "SELECT foo FROM t")).success = false := by decide
  have h := (c7_execution_adjustment (cl "SELECT foo FROM t") [] [] (.ok ())
      (fun _ => .err "Invalid column name 'foo'")).1 hf
  refine ⟨hf, ?_, ?_⟩
  · rw [h.1]; decide
  · rw [h.2.1]; decide

/-- C8: the syntax checker accumulates its independent checks without
short-circuiting: for every input, the unbalanced-parentheses error is
present iff the `(`/`)` counts differ, the unbalanced-quotes error is present
iff the single-quote count is odd, and the no-recognized-keyword error is
present iff none of SELECT/INSERT/UPDATE/DELETE/CREATE/ALTER/DROP/WITH
occurs — each independently of the others; and a tokenizer exception during
parsing yields the single error `"SQL parsing error: <message>"` instead of a
crash. -/
theorem c8_syntax_checks (q : List Char) (m : String) (fmt : List Char → List Char) :
    (("Unbalanced parentheses in query" ∈ validateSyntaxErrs q) ↔
        q.count '(' ≠ q.count ')') ∧
    (("Unbalanced single quotes in query" ∈ validateSyntaxErrs q) ↔
        q.count '\'' % 2 ≠ 0) ∧
    (("Query does not contain a recognized SQL statement type" ∈ validateSyntaxErrs q) ↔
        kwPresent (pyUpper q) = false) ∧
    (pyStrip q ≠ [] → is_read_only_query q = true →
      (validate_and_optimize q (some m) fmt).errors = ["SQL parsing error: " ++ m]) := by
  refine ⟨?_, ?_, ?_, ?_⟩
  · simp only [validateSyntaxErrs]
    split_ifs with a b c <;> simp_all
  · simp only [validateSyntaxErrs]
    split_ifs with a b c <;> simp_all
  · simp only [validateSyntaxErrs]
    split_ifs with a b c <;> simp_all
  · intro hq hro
    have h1 : ¬(q = [] ∨ pyStrip q = []) := by
      rintro (rfl | h)
      · exact hq rfl
      · exact hq h
    simp only [validate_and_optimize, if_neg h1, hro]
    simp

/-- Witness for C8 at `"SELECT 1"` with an injected tokenizer exception. -/
theorem c8_witness :
    (pyStrip (cl "SELECT 1") ≠ [] ∧ is_read_only_query (cl "SELECT 1") = true) ∧
    (validate_and_optimize (cl "SELECT 1") (some "boom") (fun l => l)).errors
      = ["SQL parsing error: " ++ "boom"] := by
  refine ⟨⟨by decide, by decide⟩, ?_⟩
  exact (c8_syntax_checks (cl "SELECT 1") "boom" (fun l => l)).2.2.2 (by decide) (by decide)

/-- C10: inside a live connection, `_test_query_execution` sends a statement
to the database only when the stripped uppercased query starts with `SELECT`;
every other input (including read-only `WITH` CTE queries) gets
`success = false` with the fixed safety error and nothing is executed; when
the query is executed and its uppercased text contains neither `LIMIT` nor
`TOP`, the statement sent is the query with its first (case-sensitive)
`SELECT` occurrence replaced by `SELECT TOP 100`.  A failed connection sends
nothing either. -/
theorem c10_select_guard (q : List Char) (orc : List Char → DbExec) (m : String) :
    ((cl "SELECT").isPrefixOf (pyUpper (pyStrip q)) = false →
      (testQueryExecution (.ok ()) orc q).sent = none ∧
      (testQueryExecution (.ok ()) orc q).success = false ∧
      (testQueryExecution (.ok ()) orc q).error
          = some "Only SELECT queries are executed for safety") ∧
    ((cl "SELECT").isPrefixOf (pyUpper (pyStrip q)) = true →
      subOf (cl "LIMIT") (pyUpper q) = false → subOf (cl "TOP") (pyUpper q) = false →
      (testQueryExecution (.ok ()) orc q).sent
          = some (replaceFirst (cl "SELECT") (cl "SELECT TOP 100") q)) ∧
    (testQueryExecution (.error m) orc q).sent = none := by
  refine ⟨?_, ?_, rfl⟩
  · intro h
    refine ⟨?_, ?_, ?_⟩ <;> simp [testQueryExecution, h]
  · intro h hL hT
    simp only [testQueryExecution, h, hL, hT, Bool.not_true, Bool.not_false, Bool.and_self,
      Bool.false_eq_true, if_false, ite_true, ite_false]
    cases orc (replaceFirst (cl "SELECT") (cl "SELECT TOP 100") q) <;> simp

/-- Witness for C10: the read-only CTE query `"WITH cte AS (SELECT 1) SELECT
* FROM cte"` is rejected by the execution tester without anything being sent,
while the lowercase `"select * from t"` passes the (case-insensitive) guard
but is sent unmodified, because `str.replace` finds no uppercase `SELECT`
occurrence. -/
theorem c10_witness :
    is_read_only_query (cl "WITH cte AS (SELECT 1) SELECT * FROM cte") = true ∧
    (testQueryExecution (.ok ()) (fun _ => DbExec.err "x")
        (cl "WITH cte AS (SELECT 1) SELECT * FROM cte")).sent = none ∧
    (testQueryExecution (.ok ()) (fun _ => DbExec.err "x")
        (cl "WITH cte AS (SELECT 1) SELECT * FROM cte")).error
      = some "Only SELECT queries are executed for safety" ∧
    (testQueryExecution (.ok ()) (fun _ => DbExec.err "x")
        (cl "select * from t")).sent = some (cl "select * from t") := by
  have h := (c10_select_guard (cl "WITH cte AS (SELECT 1) SELECT * FROM cte")
      (fun _ => DbExec.err "x") "m").1 (by decide)
  have h2 := ((c10_select_guard (cl "select * from t")
      (fun _ => DbExec.err "x") "m").2.1) (by decide) (by decide) (by decide)
  refine ⟨by decide, h.1, h.2.2, ?_⟩
  rw [h2]
  decide

/-- Appending a character different from a pattern's last character does not
change `isPrefixOf`. -/
theorem isPrefixOf_concat_eq :
    ∀ (n l : List Char) (c : Char), n.getLast? ≠ some c →
      n.isPrefixOf (l ++ [c]) = n.isPrefixOf l := by
  intro n
  induction n with
  | nil => intro l c _; simp
  | cons a n' ih =>
      intro l c hl
      cases l with
      | nil =>
          simp only [List.nil_append]
          cases n' with
          | nil =>
              have hac : ¬(a = c) := by
                intro h; exact hl (by simp [h])
              simp [List.isPrefixOf, hac]
          | cons b n'' => simp [List.isPrefixOf]
      | cons x l' =>
          simp only [List.cons_append, List.isPrefixOf_cons₂]
          cases n' with
          | nil => simp
          | cons b n'' =>
              have hl' : (b :: n'').getLast? ≠ some c := by
                simpa [List.getLast?_cons_cons] using hl
              rw [ih l' c hl']

/-- Appending a character different from a non-empty pattern's last character
does not change substring containment. -/
theorem subOf_concat_eq (n : List Char) (c : Char) (hn : n ≠ [])
    (hl : n.getLast? ≠ some c) : ∀ l, subOf n (l ++ [c]) = subOf n l := by
  intro l
  induction l with
  | nil =>
      have h1 := isPrefixOf_concat_eq n [] c hl
      simp only [List.nil_append] at h1 ⊢
      cases n with
      | nil => exact absurd rfl hn
      | cons a n' => simp [subOf, h1]
  | cons x t ih =>
      have h1 := isPrefixOf_concat_eq n (x :: t) c hl
      simp only [List.cons_append] at h1 ⊢
      simp [subOf, h1, ih]

/-- Appending the trailing semicolon does not change keyword presence: none
of the recognized keywords ends in `';'`. -/
theorem kwPresent_concat_semi (u : List Char) : kwPresent (u ++ [';']) = kwPresent u := by
  simp only [kwPresent]
  rw [subOf_concat_eq (cl "SELECT") ';' (by decide) (by decide) u,
      subOf_concat_eq (cl "INSERT") ';' (by decide) (by decide) u,
      subOf_concat_eq (cl "UPDATE") ';' (by decide) (by decide) u,
      subOf_concat_eq (cl "DELETE") ';' (by decide) (by decide) u,
      subOf_concat_eq (cl "CREATE") ';' (by decide) (by decide) u,
      subOf_concat_eq (cl "ALTER") ';' (by decide) (by decide) u,
      subOf_concat_eq (cl "DROP") ';' (by decide) (by decide) u,
      subOf_concat_eq (cl "WITH") ';' (by decide) (by decide) u]

/-- Appending a different character does not change a character count. -/
theorem count_concat_ne (l : List Char) (a c : Char) (h : ¬(c = a)) :
    (l ++ [c]).count a = l.count a := by
  simp [List.count_append, List.count_cons, h]

/-- `upper()` distributes over the appended semicolon. -/
theorem pyUpper_concat (l : List Char) (c : Char) :
    pyUpper (l ++ [c]) = pyUpper l ++ [c.toUpper] := by
  simp [pyUpper]

/-- C9: for every valid submission, re-running the syntax checks on the
returned `optimized_sql` yields the same errors list as on the original
query.  `fmt` stands for the external `sqlparse.format` call, assumed
(per the spec's formatting-only contract) to preserve the `(`/`)`/`'` counts
and keyword presence; the in-repo semicolon append is proved harmless. -/
theorem c9_optimized_roundtrip (q : List Char) (fmt : List Char → List Char)
    (hvalid : (validate_and_optimize q none fmt).is_valid = true)
    (hf1 : (fmt q).count '(' = q.count '(')
    (hf2 : (fmt q).count ')' = q.count ')')
    (hf3 : (fmt q).count '\'' % 2 = q.count '\'' % 2)
    (hf4 : kwPresent (pyUpper (fmt q)) = kwPresent (pyUpper q)) :
    validateSyntaxErrs ((validate_and_optimize q none fmt).optimized_sql)
      = validateSyntaxErrs q := by
  have hbranch : (validate_and_optimize q none fmt).optimized_sql = optimizeQuery fmt q := by
    revert hvalid
    simp only [validate_and_optimize]
    split_ifs <;> simp
  rw [hbranch]
  simp only [optimizeQuery]
  split_ifs with hsemi
  · simp only [validateSyntaxErrs]
    rw [hf1, hf2, hf3, hf4]
  · simp only [validateSyntaxErrs]
    rw [count_concat_ne (fmt q) '(' ';' (by decide),
        count_concat_ne (fmt q) ')' ';' (by decide),
        count_concat_ne (fmt q) '\'' ';' (by decide),
        pyUpper_concat]
    have hsc : Char.toUpper ';' = ';' := by decide
    rw [hsc, kwPresent_concat_semi, hf1, hf2, hf3, hf4]

/-- Witness for C9 at `"SELECT 1"` with an identity formatter. -/
theorem c9_witness :
    (validate_and_optimize (cl "SELECT 1") none (fun l => l)).is_valid = true ∧
    validateSyntaxErrs ((validate_and_optimize (cl "SELECT 1") none (fun l => l)).optimized_sql)
      = validateSyntaxErrs (cl "SELECT 1") := by
  refine ⟨by decide, ?_⟩
  exact c9_optimized_roundtrip (cl "SELECT 1") (fun l => l) (by decide) (by decide)
    (by decide) (by decide) (by decide)
